import Mathlib

/-
Verification development for the rayfine_env orchestration layer
(src/rayfine_env/api.py and src/rayfine_env/core/wrapper.py).

The embedding models Python values as an inductive type, backends as
records of pure behaviour functions (the concrete LocalBackend and
RemoteBackend classes live behind the AbstractBackend contract of
src/rayfine_env/backends/base.py), and the wrapper and load logic as
state-passing functions translated from the source.  Exceptions are
modelled with Except; a try/except that swallows an error is a match
whose error arm still returns an ok value.
-/

namespace RayfineEnv

/-- Model of a Python value travelling through the dynamic call surface. -/
inductive Val where
  | vnat : Nat → Val
  | vstr : String → Val
  | vlist : List Val → Val
deriving Inhabited

/-- Model of a backend-internal Python exception: the class name and the
message (str of the exception). -/
structure BackendExc where
  kind : String
  msg : String
deriving DecidableEq, Inhabited

/-- Rendering of a backend exception by an f-string, as in the source:
str of a standard exception is its message. -/
def BackendExc.render (e : BackendExc) : String := e.msg

/-- Boolean success test for Except values. -/
def exOkB {E A : Type} : Except E A → Bool
  | .ok _ => true
  | .error _ => false

/-- Modelled from the spec: a backend satisfying the capability contract of
section 4.1 (the concrete LocalBackend and RemoteBackend classes are not in
the sources; only the AbstractBackend interface of backends/base.py is).
The record holds the observable behaviour the wrapper depends on: the name,
the current is_ready answer, whether cleanup raises, and the call_method
behaviour (dedicated timeout slot per the contract of section 4.1). -/
structure BackendModel where
  name : String
  ready : Bool
  cleanupOk : Bool
  callMethod : String → List Val → Option Val → List (String × Val) → Except BackendExc Val

/-- Modelled from the spec (section 3): backend cleanup clears the readiness
flag once it completes; a raising cleanup leaves the backend state unchanged. -/
def BackendModel.cleanup (b : BackendModel) : Except String Unit × BackendModel :=
  if b.cleanupOk then (.ok (), { b with ready := false })
  else (.error "backend cleanup failed", b)

/-- Instance record bound by the deployment orchestrator
(api.py _deploy_instance): host, port, backend, liveness flag.  The
last_check wall-clock timestamp is omitted (real time is not modelled). -/
structure InstanceInfo where
  host : String
  port : Nat
  backend : BackendModel
  healthy : Bool

/-- Modelled from the spec: the InstancePool component (its source file is
not under src/; sections 3 and 4.2 describe it).  draw abstracts the random
selection draw; cursor is the round-robin cursor (advance of the cursor is
not modelled, no claim here depends on rotation). -/
structure InstancePool where
  name : String
  instances : List InstanceInfo
  strategy : String
  cursor : Nat
  draw : Nat

/-- Modelled from the spec (section 4.2 step 1): members selectable for a
call are those healthy and whose backend reports ready. -/
def InstancePool.healthyMembers (p : InstancePool) : List InstanceInfo :=
  p.instances.filter (fun i => i.healthy && i.backend.ready)

/-- Modelled from the spec: a pool presents the backend contract; it is
ready when it has at least one selectable member. -/
def InstancePool.isReady (p : InstancePool) : Bool :=
  !p.healthyMembers.isEmpty

/-- Modelled from the spec (section 4.2): filter to selectable members,
fail with a BackendError when none, otherwise select per strategy and
delegate to the member backend. -/
def InstancePool.callMethod (p : InstancePool) (method : String) (args : List Val)
    (timeout : Option Val) (kwargs : List (String × Val)) : Except BackendExc Val :=
  let hs := p.healthyMembers
  if hs.isEmpty then
    .error { kind := "BackendError", msg := "No healthy instances available" }
  else
    let k := hs.length
    let idx := if p.strategy = "round_robin" then p.cursor % k else p.draw % k
    match hs[idx]? with
    | some inst => inst.backend.callMethod method args timeout kwargs
    | none => .error { kind := "BackendError", msg := "instance index out of range" }

/-- Modelled from the spec (section 4.2): pool cleanup applies to every
member; individual failures are collected and reported, not masked, and do
not abort the other cleanups. -/
def InstancePool.cleanup (p : InstancePool) : Except String Unit × InstancePool :=
  let p2 := { p with instances := p.instances.map (fun i => { i with backend := (i.backend.cleanup).2 }) }
  if p.instances.all (fun i => i.backend.cleanupOk) then (.ok (), p2)
  else (.error "cleanup failed on some pool members", p2)

/-- Pool statistics snapshot, spec section 4.2. -/
structure PoolStats where
  total_instances : Nat
  healthy_instances : Nat
  strategy : String
deriving DecidableEq

/-- Modelled from the spec (section 4.2): get_stats exposes totals, healthy
count and strategy as a read-only snapshot. -/
def InstancePool.get_stats (p : InstancePool) : PoolStats :=
  { total_instances := p.instances.length
  , healthy_instances := (p.instances.filter (fun i => i.healthy)).length
  , strategy := p.strategy }

/-- The union the wrapper stores: a lone backend or an instance pool
(wrapper.py line 27: backend is AbstractBackend or InstancePool). -/
inductive BackendU where
  | single : BackendModel → BackendU
  | pool : InstancePool → BackendU

/-- Name of the wrapped object (both variants expose a name). -/
def BackendU.name : BackendU → String
  | .single b => b.name
  | .pool p => p.name

/-- is_ready of the wrapped object. -/
def BackendU.isReady : BackendU → Bool
  | .single b => b.ready
  | .pool p => p.isReady

/-- The isinstance check of wrapper.py line 39. -/
def BackendU.isPool : BackendU → Bool
  | .single _ => false
  | .pool _ => true

/-- call_method of the wrapped object. -/
def BackendU.callMethod : BackendU → String → List Val → Option Val → List (String × Val) → Except BackendExc Val
  | .single b => b.callMethod
  | .pool p => p.callMethod

/-- cleanup of the wrapped object: outcome paired with its new state. -/
def BackendU.cleanup : BackendU → Except String Unit × BackendU
  | .single b => ((b.cleanup).1, .single (b.cleanup).2)
  | .pool p => ((p.cleanup).1, .pool (p.cleanup).2)

/-- get_stats is only available on the pool variant. -/
def BackendU.get_statsOpt : BackendU → Option PoolStats
  | .single _ => none
  | .pool p => some p.get_stats

/-- An external change of the live backend readiness (for example the
container behind a LocalBackend stopping): the wrapper holds a reference to
the live backend object, whose is_ready answer can change underneath it. -/
def BackendU.withReady : BackendU → Bool → BackendU
  | .single b, r => .single { b with ready := r }
  | .pool p, r =>
      .pool { p with instances := p.instances.map (fun i => { i with backend := { i.backend with ready := r } }) }

/-- EnvironmentWrapper state, wrapper.py lines 25 to 48. -/
structure EnvironmentWrapper where
  _backend : BackendU
  _is_pool : Bool
  name : String
  _is_ready : Bool

/-- Constructor, wrapper.py lines 25 to 48: the pool flag is the isinstance
check, the name mirrors the backend name and readiness is captured from the
backend at construction time. -/
def EnvironmentWrapper.init (backend : BackendU) : EnvironmentWrapper :=
  { _backend := backend
  , _is_pool := backend.isPool
  , name := backend.name
  , _is_ready := backend.isReady }

/-- is_ready, wrapper.py lines 176 to 183: the stored flag conjoined with
the live backend probe. -/
def EnvironmentWrapper.is_ready (w : EnvironmentWrapper) : Bool :=
  w._is_ready && w._backend.isReady

/-- cleanup, wrapper.py lines 50 to 63: awaits backend cleanup inside a
try/except; on success the ready flag is cleared; an exception is logged
and swallowed, so the flag is left as it was and the caller always gets a
normal return (first component ok in both arms). -/
def EnvironmentWrapper.cleanup (w : EnvironmentWrapper) : Except String Unit × EnvironmentWrapper :=
  match BackendU.cleanup w._backend with
  | (.ok _, b2) => (.ok (), { w with _backend := b2, _is_ready := false })
  | (.error _, b2) => (.ok (), { w with _backend := b2 })

/-- The apostrophe character, used to reproduce the quoted names in the
exact source error messages. -/
def sq : String := String.singleton (Char.ofNat 39)

/-- Error message of wrapper.py lines 208 to 211. -/
def notReadyMsg (envName : String) : String :=
  "Environment " ++ sq ++ envName ++ sq ++ " not ready."

/-- Error message of wrapper.py lines 239 to 242. -/
def methodFailedMsg (method envName cause : String) : String :=
  "Method " ++ sq ++ method ++ sq ++ " failed on environment " ++ sq ++ envName ++ sq ++ ": " ++ cause

/-- Error message of wrapper.py line 205. -/
def noAttrMsg (attr : String) : String :=
  sq ++ "EnvironmentWrapper" ++ sq ++ " has no attribute " ++ sq ++ attr ++ sq

/-- The private-prefix test of wrapper.py line 204: the Python expression
is name.startswith applied to a single underscore, that is, the first
character of the name is an underscore. -/
def isPrivateName (s : String) : Bool :=
  match s.data with
  | [] => false
  | c :: _ => c == '_'

/-- Exceptions the wrapper raises to its caller. -/
inductive PyError where
  | attributeError : String → PyError
  | environmentError : String → PyError
deriving DecidableEq

/-- Outcome of a forwarded call: the value or exception delivered to the
caller, and whether the underlying backend call_method was invoked at all. -/
structure CallOutcome where
  result : Except PyError Val
  backendContacted : Bool

/-- A forwarded call through the proxy: attribute access via __getattr__
(wrapper.py lines 185 to 244) immediately followed by invoking the returned
method_caller.  Private-prefixed names raise AttributeError; a cleared
stored ready flag raises EnvironmentError before any backend contact;
otherwise the backend call_method is awaited and any exception it raises is
wrapped into a single EnvironmentError naming the method and environment. -/
def EnvironmentWrapper.forwardCall (w : EnvironmentWrapper) (method : String)
    (args : List Val) (timeout : Option Val) (kwargs : List (String × Val)) : CallOutcome :=
  if isPrivateName method then
    { result := .error (.attributeError (noAttrMsg method)), backendContacted := false }
  else if !w._is_ready then
    { result := .error (.environmentError (notReadyMsg w.name)), backendContacted := false }
  else
    match w._backend.callMethod method args timeout kwargs with
    | .ok v => { result := .ok v, backendContacted := true }
    | .error e =>
        { result := .error (.environmentError (methodFailedMsg method w.name e.render))
        , backendContacted := true }

/-- Python keyword binding at the method_caller signature
(wrapper.py line 214): a timeout keyword in the call is bound to the
dedicated keyword-only timeout parameter, the remaining keywords flow into
kwargs; then the core forward runs. -/
def EnvironmentWrapper.forwardCallPy (w : EnvironmentWrapper) (method : String)
    (args : List Val) (rawKwargs : List (String × Val)) : CallOutcome :=
  let timeout := List.lookup "timeout" rawKwargs
  let business := rawKwargs.filter (fun p => p.1 != "timeout")
  w.forwardCall method args timeout business

/-- get_stats, wrapper.py lines 275 to 284: delegate to the pool when the
stored pool flag is set, otherwise None without touching the backend. -/
def EnvironmentWrapper.get_stats (w : EnvironmentWrapper) : Option PoolStats :=
  if w._is_pool then w._backend.get_statsOpt else none

/-- Arguments of load_env, api.py lines 59 to 71 (the arguments the claims
depend on; container_name, env_vars, env_type, force_recreate only flow
through to backend construction, which is abstracted by the construction
oracle below). -/
structure LoadArgs where
  image : String
  mode : String
  replicas : Int
  hosts : Option (List String)
  load_balance : String
  base_port : Nat

/-- Exceptions escaping the load path.  backendExc is a raw backend
construction exception propagating unwrapped (single-instance path). -/
inductive LoadError where
  | validationError : String → LoadError
  | notImplementedError : String → LoadError
  | backendError : String → LoadError
  | backendExc : BackendExc → LoadError
deriving DecidableEq

/-- Rendering of a task exception by the f-string at api.py line 306:
str of each exception class is its message. -/
def LoadError.render : LoadError → String
  | .validationError m => m
  | .notImplementedError m => m
  | .backendError m => m
  | .backendExc e => e.msg

/-- Result of a load attempt together with its side-effect bookkeeping:
which instance ids had their backend constructed, and which of those had
cleanup invoked on them by the rollback path (api.py lines 291 to 306). -/
structure LoadResult where
  result : Except LoadError EnvironmentWrapper
  constructed : List Nat
  cleanedUp : List Nat

/-- Python truthiness of the optional host list: None and the empty list
are falsy (api.py lines 122 and 230 test the list itself). -/
def pyTruthy : Option (List String) → Bool
  | some (_ :: _) => true
  | _ => false

/-- The expression hosts[0] if hosts else localhost of api.py line 133. -/
def firstHost : Option (List String) → String
  | some (h :: _) => h
  | _ => "localhost"

/-- Message of api.py line 120. -/
def replicasMsg : String := "replicas must be >= 1"

/-- Message of api.py lines 123 to 126. -/
def notEnoughHostsMsg (numHosts : Nat) (replicas : Int) : String :=
  "Not enough hosts (" ++ toString numHosts ++ ") for replicas (" ++ toString replicas ++
  "). Either provide enough hosts or set hosts=None for local deployment."

/-- Message of api.py line 199. -/
def invalidModeMsg (mode : String) : String :=
  "Invalid mode: " ++ mode ++ ". Must be " ++ sq ++ "local" ++ sq ++ " or " ++ sq ++ "remote" ++ sq

/-- Message of api.py line 345. -/
def multiModeMsg (mode : String) : String :=
  "Mode " ++ sq ++ mode ++ sq ++ " not supported for multi-instance"

/-- Message of api.py lines 236 to 239. -/
def remoteHostMsg (host : String) : String :=
  "Remote SSH deployment to " ++ sq ++ host ++ sq ++ " not yet implemented. " ++
  "Currently only localhost deployment is supported."

/-- Message of api.py lines 177 to 180. -/
def singleRemoteMsg : String :=
  "Remote SSH deployment not yet implemented. " ++
  "Use hosts=[" ++ sq ++ "localhost" ++ sq ++ "] or hosts=None for local deployment."

/-- _load_single_instance, api.py lines 162 to 209.  mkLocal is the
LocalBackend construction oracle (instance id, host, port); mkRemote the
RemoteBackend construction oracle.  Registry bookkeeping is plumbing and
not modelled. -/
def _load_single_instance (mkLocal : Nat → String → Nat → Except BackendExc BackendModel)
    (mkRemote : Except BackendExc BackendModel) (a : LoadArgs) (host : String) : LoadResult :=
  if host != "localhost" then
    { result := .error (.notImplementedError singleRemoteMsg), constructed := [], cleanedUp := [] }
  else if a.mode = "local" then
    match mkLocal 0 host a.base_port with
    | .ok b => { result := .ok (EnvironmentWrapper.init (.single b)), constructed := [0], cleanedUp := [] }
    | .error e => { result := .error (.backendExc e), constructed := [], cleanedUp := [] }
  else if a.mode = "remote" then
    match mkRemote with
    | .ok b => { result := .ok (EnvironmentWrapper.init (.single b)), constructed := [0], cleanedUp := [] }
    | .error e => { result := .error (.backendExc e), constructed := [], cleanedUp := [] }
  else
    { result := .error (.validationError (invalidModeMsg a.mode)), constructed := [], cleanedUp := [] }

/-- _deploy_instance, api.py lines 309 to 357: the host was pre-validated
to be localhost; an unsupported mode raises ValidationError before any
backend construction; in local mode the LocalBackend is constructed on
port base_port + instance id and wrapped in an InstanceInfo created
healthy. -/
def _deploy_instance (mkLocal : Nat → String → Nat → Except BackendExc BackendModel)
    (a : LoadArgs) (hostsList : List String) (i : Nat) : Except LoadError InstanceInfo :=
  let host := hostsList.getD i "localhost"
  if host != "localhost" then
    .error (.notImplementedError "Remote SSH deployment not yet implemented")
  else if a.mode = "local" then
    match mkLocal i host (a.base_port + i) with
    | .ok b => .ok { host := host, port := a.base_port + i, backend := b, healthy := true }
    | .error e => .error (.backendExc e)
  else
    .error (.validationError (multiModeMsg a.mode))

/-- The N concurrent deployment tasks of api.py lines 253 to 269, indexed. -/
def deployOutcomes (mkLocal : Nat → String → Nat → Except BackendExc BackendModel)
    (a : LoadArgs) (hostsList : List String) (n : Nat) : List (Nat × Except LoadError InstanceInfo) :=
  (List.range n).map (fun i => (i, _deploy_instance mkLocal a hostsList i))

/-- The exception asyncio.gather propagates when a task raises.  The model
is untimed, so the first-raising task is taken to be the least failing
index; no claim below depends on which failure is reported. -/
def firstTaskError (outs : List (Nat × Except LoadError InstanceInfo)) : Option LoadError :=
  (outs.filterMap (fun p => match p.2 with | .error e => some e | .ok _ => none)).head?

/-- _load_multi_instance, api.py lines 212 to 306.  On any task failure
asyncio.gather raises before the instances local variable is assigned, so
the rollback loop at lines 295 to 304 iterates an empty list: cleanedUp is
empty even when some constructions succeeded.  The pool name is generated
by the InstancePool itself (source not in the repository snapshot); it is
modelled as derived from the image name. -/
def _load_multi_instance (mkLocal : Nat → String → Nat → Except BackendExc BackendModel)
    (a : LoadArgs) : LoadResult :=
  let n := a.replicas.toNat
  let hostsList := if pyTruthy a.hosts then a.hosts.getD [] else List.replicate n "localhost"
  match hostsList.find? (fun h => h != "localhost") with
  | some h =>
      { result := .error (.notImplementedError (remoteHostMsg h)), constructed := [], cleanedUp := [] }
  | none =>
      let outs := deployOutcomes mkLocal a hostsList n
      let cons := (outs.filter (fun p => exOkB p.2)).map Prod.fst
      match firstTaskError outs with
      | some e =>
          { result := .error (.backendError ("Multi-instance deployment failed: " ++ e.render))
          , constructed := cons, cleanedUp := [] }
      | none =>
          let infos := outs.filterMap (fun p => p.2.toOption)
          let pool : InstancePool :=
            { name := a.image ++ "-pool", instances := infos
            , strategy := a.load_balance, cursor := 0, draw := 0 }
          { result := .ok (EnvironmentWrapper.init (.pool pool))
          , constructed := cons, cleanedUp := [] }

/-- load_env, api.py lines 59 to 159: validation, then the single-instance
or multi-instance path.  The outer try/except logs and re-raises the same
exception, so it is the identity on outcomes. -/
def load_env (mkLocal : Nat → String → Nat → Except BackendExc BackendModel)
    (mkRemote : Except BackendExc BackendModel) (a : LoadArgs) : LoadResult :=
  if a.replicas < 1 then
    { result := .error (.validationError replicasMsg), constructed := [], cleanedUp := [] }
  else if pyTruthy a.hosts = true ∧ Int.ofNat (a.hosts.getD []).length < a.replicas then
    { result := .error (.validationError (notEnoughHostsMsg (a.hosts.getD []).length a.replicas))
    , constructed := [], cleanedUp := [] }
  else if a.replicas = 1 then
    _load_single_instance mkLocal mkRemote a (firstHost a.hosts)
  else
    _load_multi_instance mkLocal a

/-- Encoding of the None-or-value timeout slot as a Python value. -/
def encodeTimeout : Option Val → Val
  | none => .vlist []
  | some v => .vlist [v]

/-- Encoding of the full tuple a backend call_method receives. -/
def encodeCall (method : String) (args : List Val) (t : Option Val)
    (kw : List (String × Val)) : Val :=
  .vlist [.vstr method, .vlist args, encodeTimeout t,
          .vlist (kw.map (fun p => .vlist [.vstr p.1, p.2]))]

/-- A recording backend: its call_method answers with the exact tuple it
received, so a forwarded result exposes what reached the backend. -/
def spyBackend (nm : String) : BackendModel :=
  { name := nm, ready := true, cleanupOk := true
  , callMethod := fun n a t k => .ok (encodeCall n a t k) }

/-- A backend whose every remote call fails with a backend-internal
exception class. -/
def bFail : BackendModel :=
  { name := "env3", ready := true, cleanupOk := true
  , callMethod := fun _ _ _ _ => .error { kind := "RayExecutionError", msg := "boom" } }

/-- A healthy backend answering a constant value. -/
def bEx : BackendModel :=
  { name := "b0", ready := true, cleanupOk := true
  , callMethod := fun _ _ _ _ => .ok (Val.vnat 7) }

/-- A backend whose cleanup raises. -/
def bBadClean : BackendModel :=
  { name := "env2", ready := true, cleanupOk := false
  , callMethod := fun _ _ _ _ => .ok (Val.vnat 1) }

/-- Construction oracle where instance 0 succeeds and every other instance
fails (one failed construction among N concurrent ones). -/
def mkSplit : Nat → String → Nat → Except BackendExc BackendModel :=
  fun i _ _ =>
    if i = 0 then .ok bEx
    else .error { kind := "ContainerError", msg := "container failed to start" }

/-- An external event making the live backend unready after the wrapper
captured its readiness (for example the container behind a LocalBackend
stopping); the wrapper keeps only a reference to the live object. -/
def backendWentDown (w : EnvironmentWrapper) : EnvironmentWrapper :=
  { w with _backend := w._backend.withReady false }

/-- Test for a ValidationError outcome of a load attempt. -/
def isValidationErr : Except LoadError EnvironmentWrapper → Bool
  | .error (.validationError _) => true
  | _ => false

/-- A singleton pool holding one healthy instance over the given backend. -/
def singletonPool (b : BackendModel) (host : String) (port : Nat)
    (pnm strat : String) (cur dr : Nat) : InstancePool :=
  { name := pnm
  , instances := [{ host := host, port := port, backend := b, healthy := true }]
  , strategy := strat, cursor := cur, draw := dr }

/-- Cleanup of the wrapper always returns normally, clears the ready flag
exactly when the backend cleanup succeeded, and preserves the name. -/
theorem cleanup_spec (w : EnvironmentWrapper) :
    (w.cleanup).1 = Except.ok () ∧
    ((w.cleanup).2)._is_ready = (if exOkB (BackendU.cleanup w._backend).1 then false else w._is_ready) ∧
    ((w.cleanup).2).name = w.name := by
  unfold EnvironmentWrapper.cleanup
  cases h : BackendU.cleanup w._backend with
  | mk res b2 =>
    cases res with
    | error e => simp [exOkB]
    | ok v => simp [exOkB]

/-- getD on a replicated list is always the replicated element. -/
theorem getD_replicate (s : String) (n i : Nat) :
    (List.replicate n s).getD i s = s := by
  induction n generalizing i with
  | zero => simp
  | succ m ih =>
    cases i with
    | zero => simp [List.replicate]
    | succ j => simp [List.replicate, ih j]

/-- find? for a non-localhost entry over a localhost-replicated list. -/
theorem find_replicate_localhost (n : Nat) :
    (List.replicate n "localhost").find? (fun h => h != "localhost") = none := by
  induction n with
  | zero => rfl
  | succ m ih => simp [List.replicate, List.find?, ih]

/-- filterMap of an everywhere-none function is empty. -/
theorem filterMap_of_none {A B : Type} (l : List A) (h : A → Option B)
    (hh : ∀ x ∈ l, h x = none) : l.filterMap h = [] := by
  induction l with
  | nil => rfl
  | cons a as ih =>
    simp only [List.filterMap_cons, hh a (by simp)]
    exact ih (fun x hx => hh x (by simp [hx]))

/-- filterMap of an everywhere-some function is the corresponding map. -/
theorem filterMap_of_some {A B : Type} (l : List A) (h : A → Option B) (f2 : A → B)
    (hh : ∀ x ∈ l, h x = some (f2 x)) : l.filterMap h = l.map f2 := by
  induction l with
  | nil => rfl
  | cons a as ih =>
    simp only [List.filterMap_cons, hh a (by simp), List.map_cons]
    rw [ih (fun x hx => hh x (by simp [hx]))]

/-- head? of a filterMap whose function is constantly some e0. -/
theorem filterMap_head_of_some {A B : Type} (l : List A) (h : A → Option B) (e0 : B)
    (hl : ∀ x ∈ l, h x = some e0) (hne : l ≠ []) : (l.filterMap h).head? = some e0 := by
  cases l with
  | nil => exact absurd rfl hne
  | cons a as => simp [List.filterMap_cons, hl a (by simp)]

/-- C9: EnvironmentWrapper.cleanup never propagates an exception: for every
wrapper state, including one whose backend cleanup raises, cleanup returns
normally, and the stored ready flag is cleared exactly when the backend
cleanup completed without raising (it is left untouched when it raised). -/
theorem C9_cleanup_never_raises_flag_cleared_on_success (w : EnvironmentWrapper) :
    (w.cleanup).1 = Except.ok () ∧
    ((w.cleanup).2)._is_ready
      = (if exOkB (BackendU.cleanup w._backend).1 then false else w._is_ready) :=
  ⟨(cleanup_spec w).1, (cleanup_spec w).2.1⟩

/-- C10: a proxy wrapping a single backend answers get_stats with none for
every backend behaviour (so without consulting the backend), while a proxy
wrapping an instance pool answers the pool statistics snapshot. -/
theorem C10_get_stats_none_unless_pool (b : BackendModel) (p : InstancePool) :
    (EnvironmentWrapper.init (.single b)).get_stats = none ∧
    (EnvironmentWrapper.init (.pool p)).get_stats
      = some { total_instances := p.instances.length
             , healthy_instances := (p.instances.filter (fun i => i.healthy)).length
             , strategy := p.strategy } := by
  constructor
  · rfl
  · rfl

/-- C1: at the failing input replicas = 2 with instance 0 constructing
successfully and instance 1 failing, load_env raises the single aggregated
BackendError, but the rollback of api.py lines 295 to 304 invokes cleanup
on no backend at all, because the instances local is only assigned after a
fully successful gather: backend 0 is left running and unreferenced. -/
theorem C1_failed_deploy_cleans_up_nothing :
    (load_env mkSplit (.ok bEx)
        { image := "x", mode := "local", replicas := 2, hosts := none
        , load_balance := "random", base_port := 8000 }).result
      = .error (.backendError "Multi-instance deployment failed: container failed to start") ∧
    (load_env mkSplit (.ok bEx)
        { image := "x", mode := "local", replicas := 2, hosts := none
        , load_balance := "random", base_port := 8000 }).constructed = [0] ∧
    (load_env mkSplit (.ok bEx)
        { image := "x", mode := "local", replicas := 2, hosts := none
        , load_balance := "random", base_port := 8000 }).cleanedUp = [] := by
  exact ⟨rfl, rfl, rfl⟩

/-- C2 counterexample: a wrapper built over a ready backend whose live
is_ready answer later turns false still forwards the call to the backend:
the proxy decided from its stored flag alone, while the live probe (and the
proxy is_ready method) report not ready. -/
theorem C2_forwards_despite_unready_backend :
    (backendWentDown (EnvironmentWrapper.init (.single (spyBackend "env1")))).is_ready = false ∧
    ((backendWentDown (EnvironmentWrapper.init (.single (spyBackend "env1")))).forwardCall
        "evaluate" [] none []).backendContacted = true := by
  exact ⟨rfl, rfl⟩

/-- C2 amended: the is_ready method does conjoin the stored flag with the
live backend probe, but a forwarded call is gated on the stored flag alone:
for every wrapper state and non-private method name, the backend is
contacted exactly when the stored flag is set, whatever the live backend
reports. -/
theorem C2_forward_gate_is_stored_flag (w : EnvironmentWrapper) (method : String)
    (args : List Val) (t : Option Val) (kw : List (String × Val))
    (h : isPrivateName method = false) :
    (w.forwardCall method args t kw).backendContacted = w._is_ready ∧
    w.is_ready = (w._is_ready && w._backend.isReady) := by
  refine ⟨?_, rfl⟩
  cases hr : w._is_ready with
  | false => simp [EnvironmentWrapper.forwardCall, h, hr]
  | true =>
    cases hc : w._backend.callMethod method args t kw with
    | ok v => simp [EnvironmentWrapper.forwardCall, h, hr, hc]
    | error e => simp [EnvironmentWrapper.forwardCall, h, hr, hc]

/-- C2 amended, witnessed at a concrete input. -/
theorem C2_forward_gate_is_stored_flag_witness :
    (isPrivateName "evaluate" = false) ∧
    ((EnvironmentWrapper.init (.single (spyBackend "envw"))).forwardCall
        "evaluate" [] none []).backendContacted
      = (EnvironmentWrapper.init (.single (spyBackend "envw")))._is_ready :=
  ⟨rfl, (C2_forward_gate_is_stored_flag
      (EnvironmentWrapper.init (.single (spyBackend "envw"))) "evaluate" [] none [] rfl).1⟩

/-- C3 counterexample: when the wrapped backend cleanup raises, the proxy
cleanup returns normally but leaves the stored ready flag set, so a
subsequent forward request reaches the backend and succeeds instead of
failing with EnvironmentError. -/
theorem C3_forward_after_failed_cleanup_reaches_backend :
    (((EnvironmentWrapper.init (.single bBadClean)).cleanup).1) = Except.ok () ∧
    ((((EnvironmentWrapper.init (.single bBadClean)).cleanup).2).forwardCall
        "step" [] none []).backendContacted = true ∧
    ((((EnvironmentWrapper.init (.single bBadClean)).cleanup).2).forwardCall
        "step" [] none []).result = .ok (Val.vnat 1) := by
  exact ⟨rfl, rfl, rfl⟩

/-- C3 amended: after a cleanup in which the wrapped backend cleanup
completed without raising, every subsequent forward request fails with the
uniform not-ready EnvironmentError without any backend contact, and a
repeated cleanup returns normally and leaves the proxy cleaned up; when the
backend cleanup raised, the ready flag is not cleared and forwards still
reach the backend. -/
theorem C3_cleaned_up_is_terminal_when_backend_cleanup_succeeds
    (w : EnvironmentWrapper)
    (hok : exOkB (BackendU.cleanup w._backend).1 = true)
    (method : String) (args : List Val) (t : Option Val) (kw : List (String × Val))
    (h : isPrivateName method = false) :
    (((w.cleanup).2).forwardCall method args t kw).result
      = .error (.environmentError (notReadyMsg w.name)) ∧
    (((w.cleanup).2).forwardCall method args t kw).backendContacted = false ∧
    (((w.cleanup).2).cleanup).1 = Except.ok () ∧
    ((((w.cleanup).2).cleanup).2)._is_ready = false := by
  have hflag : ((w.cleanup).2)._is_ready = false := by
    rw [(cleanup_spec w).2.1, hok]
    rfl
  have hname : ((w.cleanup).2).name = w.name := (cleanup_spec w).2.2
  refine ⟨?_, ?_, (cleanup_spec ((w.cleanup).2)).1, ?_⟩
  · simp [EnvironmentWrapper.forwardCall, h, hflag, hname]
  · simp [EnvironmentWrapper.forwardCall, h, hflag]
  · rw [(cleanup_spec ((w.cleanup).2)).2.1, hflag]
    cases exOkB (BackendU.cleanup ((w.cleanup).2)._backend).1 <;> rfl

/-- C3 amended, witnessed at a concrete input. -/
theorem C3_cleaned_up_is_terminal_witness :
    (exOkB (BackendU.cleanup
        (EnvironmentWrapper.init (.single (spyBackend "envc")))._backend).1 = true) ∧
    (isPrivateName "step" = false) ∧
    ((((EnvironmentWrapper.init (.single (spyBackend "envc"))).cleanup).2).forwardCall
        "step" [] none []).result
      = .error (.environmentError (notReadyMsg "envc")) ∧
    ((((EnvironmentWrapper.init (.single (spyBackend "envc"))).cleanup).2).forwardCall
        "step" [] none []).backendContacted = false :=
  ⟨rfl, rfl,
    (C3_cleaned_up_is_terminal_when_backend_cleanup_succeeds
      (EnvironmentWrapper.init (.single (spyBackend "envc"))) rfl "step" [] none [] rfl).1,
    (C3_cleaned_up_is_terminal_when_backend_cleanup_succeeds
      (EnvironmentWrapper.init (.single (spyBackend "envc"))) rfl "step" [] none [] rfl).2.1⟩

/-- C5: through a recording backend, a forwarded call delivers to
call_method exactly the method name, the positional arguments in order, the
timeout keyword in the dedicated timeout slot, and the remaining keyword
arguments unchanged; the forwarded keyword list never contains the timeout
key. -/
theorem C5_forward_preserves_arguments (nm method : String) (args : List Val)
    (rawKwargs : List (String × Val))
    (h : isPrivateName method = false) :
    ((EnvironmentWrapper.init (.single (spyBackend nm))).forwardCallPy
        method args rawKwargs).result
      = .ok (encodeCall method args (List.lookup "timeout" rawKwargs)
              (rawKwargs.filter (fun p => p.1 != "timeout"))) ∧
    ((rawKwargs.filter (fun p => p.1 != "timeout")).all (fun p => p.1 != "timeout")) = true := by
  constructor
  · simp [EnvironmentWrapper.forwardCallPy, EnvironmentWrapper.forwardCall,
          EnvironmentWrapper.init, spyBackend, BackendU.callMethod, BackendU.isReady, h]
  · rw [List.all_eq_true]
    intro p hp
    exact (List.mem_filter.mp hp).2

/-- C5, witnessed at a concrete input. -/
theorem C5_forward_preserves_arguments_witness :
    (isPrivateName "run" = false) ∧
    ((EnvironmentWrapper.init (.single (spyBackend "envx"))).forwardCallPy
        "run" [Val.vnat 1, Val.vnat 2]
        [("timeout", Val.vnat 5), ("k", Val.vstr "v")]).result
      = .ok (encodeCall "run" [Val.vnat 1, Val.vnat 2]
              (List.lookup "timeout" [("timeout", Val.vnat 5), ("k", Val.vstr "v")])
              ([("timeout", Val.vnat 5), ("k", Val.vstr "v")].filter (fun p => p.1 != "timeout"))) :=
  ⟨rfl, (C5_forward_preserves_arguments "envx" "run" [Val.vnat 1, Val.vnat 2]
      [("timeout", Val.vnat 5), ("k", Val.vstr "v")] rfl).1⟩

/-- C6: when the backend call raises any backend-internal exception, the
caller of a forwarded call receives exactly one EnvironmentError whose
message names the method and the environment and wraps the cause message;
the backend exception class never appears in the outcome. -/
theorem C6_failures_wrapped_in_environment_error (w : EnvironmentWrapper)
    (method : String) (args : List Val) (t : Option Val) (kw : List (String × Val))
    (e : BackendExc)
    (hready : w._is_ready = true)
    (h : isPrivateName method = false)
    (hcall : w._backend.callMethod method args t kw = .error e) :
    (w.forwardCall method args t kw).result
      = .error (.environmentError (methodFailedMsg method w.name e.render)) ∧
    (w.forwardCall method args t kw).backendContacted = true := by
  constructor <;> simp [EnvironmentWrapper.forwardCall, h, hready, hcall]

/-- C6, witnessed at a concrete input: the RayExecutionError kind raised by
the backend is absorbed and only its message is wrapped. -/
theorem C6_failures_wrapped_witness :
    ((EnvironmentWrapper.init (.single bFail))._is_ready = true) ∧
    (isPrivateName "evaluate" = false) ∧
    ((EnvironmentWrapper.init (.single bFail)).forwardCall
        "evaluate" [] none []).result
      = .error (.environmentError (methodFailedMsg "evaluate" "env3" "boom")) :=
  ⟨rfl, rfl,
    (C6_failures_wrapped_in_environment_error (EnvironmentWrapper.init (.single bFail))
      "evaluate" [] none [] { kind := "RayExecutionError", msg := "boom" }
      rfl rfl rfl).1⟩

/-- For a non-local mode every deployment task fails its mode validation
before constructing any backend. -/
theorem deploy_instance_bad_mode (mkL : Nat → String → Nat → Except BackendExc BackendModel)
    (a : LoadArgs) (n i : Nat) (hmode : ¬ a.mode = "local") :
    _deploy_instance mkL a (List.replicate n "localhost") i
      = .error (.validationError (multiModeMsg a.mode)) := by
  unfold _deploy_instance
  rw [getD_replicate]
  simp [hmode]

/-- C4 counterexample: an invalid mode with replicas = 2 does not surface as
ValidationError: the per-task ValidationError is swallowed by the gather
except branch and rewrapped into the aggregated BackendError. -/
theorem C4_invalid_mode_rewrapped_for_replicas_two :
    (load_env mkSplit (.ok bEx)
        { image := "x", mode := "bogus", replicas := 2, hosts := none
        , load_balance := "random", base_port := 8000 }).result
      = .error (.backendError ("Multi-instance deployment failed: " ++ multiModeMsg "bogus")) ∧
    isValidationErr (load_env mkSplit (.ok bEx)
        { image := "x", mode := "bogus", replicas := 2, hosts := none
        , load_balance := "random", base_port := 8000 }).result = false := by
  exact ⟨rfl, rfl⟩

/-- C4 amended: replicas below one and an insufficient host list always
fail immediately with ValidationError and no backend is constructed; an
invalid mode fails with ValidationError for replicas = 1 (local host), but
for replicas of at least two any non-local mode fails inside the concurrent
deployment and is rewrapped into the aggregated BackendError, still with no
backend constructed. -/
theorem C4_validation_paths (mkL : Nat → String → Nat → Except BackendExc BackendModel)
    (mkR : Except BackendExc BackendModel) (a : LoadArgs) :
    (a.replicas < 1 →
      (load_env mkL mkR a).result = .error (.validationError replicasMsg) ∧
      (load_env mkL mkR a).constructed = []) ∧
    (¬ a.replicas < 1 → pyTruthy a.hosts = true →
      Int.ofNat (a.hosts.getD []).length < a.replicas →
      (load_env mkL mkR a).result
        = .error (.validationError (notEnoughHostsMsg (a.hosts.getD []).length a.replicas)) ∧
      (load_env mkL mkR a).constructed = []) ∧
    (a.replicas = 1 → a.hosts = none → ¬ a.mode = "local" → ¬ a.mode = "remote" →
      (load_env mkL mkR a).result = .error (.validationError (invalidModeMsg a.mode)) ∧
      (load_env mkL mkR a).constructed = []) ∧
    (2 ≤ a.replicas → pyTruthy a.hosts = false → ¬ a.mode = "local" →
      (load_env mkL mkR a).result
        = .error (.backendError ("Multi-instance deployment failed: " ++ multiModeMsg a.mode)) ∧
      (load_env mkL mkR a).constructed = []) := by
  refine ⟨?_, ?_, ?_, ?_⟩
  · intro h1
    unfold load_env
    rw [if_pos h1]
    exact ⟨rfl, rfl⟩
  · intro h1 h2 h3
    unfold load_env
    rw [if_neg h1, if_pos ⟨h2, h3⟩]
    exact ⟨rfl, rfl⟩
  · intro h1 h2 hL hR
    unfold load_env
    rw [if_neg (by omega), if_neg (by simp [h2, pyTruthy]), if_pos h1]
    unfold _load_single_instance
    rw [h2]
    simp [firstHost, hL, hR]
  · intro h1 h2 hL
    have hn0 : ¬ (List.range a.replicas.toNat).map
        (fun i => (i, _deploy_instance mkL a (List.replicate a.replicas.toNat "localhost") i)) = [] := by
      rw [List.map_eq_nil_iff, List.range_eq_nil]
      omega
    have hfe : firstTaskError (deployOutcomes mkL a
          (List.replicate a.replicas.toNat "localhost") a.replicas.toNat)
        = some (.validationError (multiModeMsg a.mode)) := by
      unfold firstTaskError deployOutcomes
      apply filterMap_head_of_some _ _ _ _ hn0
      intro x hx
      obtain ⟨i, _, rfl⟩ := List.mem_map.mp hx
      rw [deploy_instance_bad_mode mkL a _ i hL]
    have hfil : ((deployOutcomes mkL a (List.replicate a.replicas.toNat "localhost")
          a.replicas.toNat).filter (fun p => exOkB p.2)) = [] := by
      rw [List.filter_eq_nil_iff]
      intro x hx
      obtain ⟨i, _, rfl⟩ := List.mem_map.mp hx
      simp [deploy_instance_bad_mode mkL a _ i hL, exOkB]
    unfold load_env
    rw [if_neg (by omega), if_neg (by simp [h2]), if_neg (by omega)]
    unfold _load_multi_instance
    rw [h2]
    simp only [Bool.false_eq_true, if_false, find_replicate_localhost]
    rw [hfe, hfil]
    exact ⟨rfl, rfl⟩

/-- C4 amended, witnessed at concrete inputs: too few hosts with
replicas = 2 gives ValidationError with nothing constructed, and the bogus
mode with replicas = 2 gives the rewrapped BackendError with nothing
constructed. -/
theorem C4_validation_paths_witness :
    ((load_env mkSplit (.ok bEx)
        { image := "x", mode := "local", replicas := 2, hosts := some ["localhost"]
        , load_balance := "random", base_port := 8000 }).result
      = .error (.validationError (notEnoughHostsMsg 1 2)) ∧
     (load_env mkSplit (.ok bEx)
        { image := "x", mode := "local", replicas := 2, hosts := some ["localhost"]
        , load_balance := "random", base_port := 8000 }).constructed = []) ∧
    ((load_env mkSplit (.ok bEx)
        { image := "x", mode := "bogus", replicas := 2, hosts := none
        , load_balance := "random", base_port := 8000 }).result
      = .error (.backendError ("Multi-instance deployment failed: " ++ multiModeMsg "bogus")) ∧
     (load_env mkSplit (.ok bEx)
        { image := "x", mode := "bogus", replicas := 2, hosts := none
        , load_balance := "random", base_port := 8000 }).constructed = []) :=
  ⟨(C4_validation_paths mkSplit (.ok bEx)
      { image := "x", mode := "local", replicas := 2, hosts := some ["localhost"]
      , load_balance := "random", base_port := 8000 }).2.1
      (by decide) rfl (by decide),
   (C4_validation_paths mkSplit (.ok bEx)
      { image := "x", mode := "bogus", replicas := 2, hosts := none
      , load_balance := "random", base_port := 8000 }).2.2.2
      (by decide) rfl (by decide)⟩

/-- Construction oracle where every instance construction succeeds. -/
def mkAll : Nat → String → Nat → Except BackendExc BackendModel :=
  fun _ _ _ => .ok bEx

/-- C7: in a multi-instance deployment with no host list and all
constructions succeeding, instance i is bound to host localhost and port
base_port + i, and the returned wrapper holds the pool of exactly those
instance records in index order. -/
theorem C7_port_and_host_assignment
    (mkL : Nat → String → Nat → Except BackendExc BackendModel)
    (mkR : Except BackendExc BackendModel) (a : LoadArgs) (f : Nat → BackendModel)
    (hrep : 2 ≤ a.replicas) (hmode : a.mode = "local") (hhosts : a.hosts = none)
    (hmk : ∀ i, mkL i "localhost" (a.base_port + i) = .ok (f i)) :
    (load_env mkL mkR a).result
      = .ok (EnvironmentWrapper.init (.pool
          { name := a.image ++ "-pool"
          , instances := (List.range a.replicas.toNat).map
              (fun i => { host := "localhost", port := a.base_port + i
                        , backend := f i, healthy := true })
          , strategy := a.load_balance, cursor := 0, draw := 0 })) ∧
    (∀ i, i < a.replicas.toNat →
      ((List.range a.replicas.toNat).map
          (fun j => ({ host := "localhost", port := a.base_port + j
                     , backend := f j, healthy := true } : InstanceInfo)))[i]?
        = some { host := "localhost", port := a.base_port + i
               , backend := f i, healthy := true }) := by
  have hdep : ∀ i, _deploy_instance mkL a (List.replicate a.replicas.toNat "localhost") i
      = .ok { host := "localhost", port := a.base_port + i, backend := f i, healthy := true } := by
    intro i
    unfold _deploy_instance
    rw [getD_replicate]
    simp [hmode, hmk i]
  have houts : deployOutcomes mkL a (List.replicate a.replicas.toNat "localhost") a.replicas.toNat
      = (List.range a.replicas.toNat).map
          (fun i => (i, Except.ok { host := "localhost", port := a.base_port + i
                                  , backend := f i, healthy := true })) := by
    unfold deployOutcomes
    exact List.map_congr_left (fun i _ => by rw [hdep i])
  have hfe : firstTaskError ((List.range a.replicas.toNat).map
      (fun i => (i, (Except.ok
          { host := "localhost", port := a.base_port + i, backend := f i, healthy := true }
        : Except LoadError InstanceInfo)))) = none := by
    unfold firstTaskError
    rw [filterMap_of_none]
    · rfl
    · intro x hx
      obtain ⟨i, _, rfl⟩ := List.mem_map.mp hx
      rfl
  have hinfos : ((List.range a.replicas.toNat).map
      (fun i => (i, (Except.ok
          { host := "localhost", port := a.base_port + i, backend := f i, healthy := true }
        : Except LoadError InstanceInfo)))).filterMap
        (fun p => p.2.toOption)
      = (List.range a.replicas.toNat).map
          (fun i => { host := "localhost", port := a.base_port + i
                    , backend := f i, healthy := true }) := by
    rw [List.filterMap_map]
    exact filterMap_of_some _ _ _ (fun i _ => rfl)
  constructor
  · unfold load_env
    rw [if_neg (by omega), if_neg (by simp [hhosts, pyTruthy]), if_neg (by omega)]
    unfold _load_multi_instance
    rw [hhosts]
    simp only [pyTruthy, Bool.false_eq_true, if_false, Option.getD, find_replicate_localhost]
    rw [houts, hfe, hinfos]
  · intro i hi
    rw [List.getElem?_map, List.getElem?_range hi]
    rfl

/-- C7, witnessed at the concrete scenario of the spec: replicas = 3 and
base_port = 8000 yield instances on localhost ports 8000, 8001 and 8002. -/
theorem C7_port_and_host_assignment_witness :
    (load_env mkAll (.ok bEx)
        { image := "x", mode := "local", replicas := 3, hosts := none
        , load_balance := "random", base_port := 8000 }).result
      = .ok (EnvironmentWrapper.init (.pool
          { name := "x-pool"
          , instances :=
              [ { host := "localhost", port := 8000, backend := bEx, healthy := true }
              , { host := "localhost", port := 8001, backend := bEx, healthy := true }
              , { host := "localhost", port := 8002, backend := bEx, healthy := true } ]
          , strategy := "random", cursor := 0, draw := 0 })) :=
  (C7_port_and_host_assignment mkAll (.ok bEx)
      { image := "x", mode := "local", replicas := 3, hosts := none
      , load_balance := "random", base_port := 8000 }
      (fun _ => bEx) (by decide) rfl rfl (fun _ => rfl)).1

/-- C8: a proxy over a lone backend and a proxy over a size-one pool
holding the same backend agree on is_ready, deliver the same value for a
successful forwarded call, both return normally from cleanup, and agree on
is_ready after cleanup, for every backend behaviour (including one whose
cleanup raises). -/
theorem C8_single_replica_equals_singleton_pool (b : BackendModel)
    (host : String) (port : Nat) (pnm strat : String) (cur dr : Nat)
    (method : String) (args : List Val) (t : Option Val) (kw : List (String × Val)) (v : Val)
    (hm : isPrivateName method = false)
    (hready : b.ready = true)
    (hcall : b.callMethod method args t kw = .ok v) :
    (EnvironmentWrapper.init (.single b)).is_ready
      = (EnvironmentWrapper.init (.pool (singletonPool b host port pnm strat cur dr))).is_ready ∧
    ((EnvironmentWrapper.init (.single b)).forwardCall method args t kw).result = .ok v ∧
    ((EnvironmentWrapper.init (.pool (singletonPool b host port pnm strat cur dr))).forwardCall
        method args t kw).result = .ok v ∧
    ((EnvironmentWrapper.init (.single b)).cleanup).1 = Except.ok () ∧
    ((EnvironmentWrapper.init (.pool (singletonPool b host port pnm strat cur dr))).cleanup).1
      = Except.ok () ∧
    (((EnvironmentWrapper.init (.single b)).cleanup).2).is_ready
      = (((EnvironmentWrapper.init (.pool (singletonPool b host port pnm strat cur dr))).cleanup).2).is_ready := by
  refine ⟨?_, ?_, ?_, ?_, ?_, ?_⟩
  · simp [EnvironmentWrapper.init, EnvironmentWrapper.is_ready, BackendU.isReady,
          InstancePool.isReady, InstancePool.healthyMembers, singletonPool, hready]
  · simp [EnvironmentWrapper.forwardCall, EnvironmentWrapper.init, BackendU.isReady,
          BackendU.callMethod, hm, hready, hcall]
  · have hidx : (if strat = "round_robin" then cur % 1 else dr % 1) = 0 := by
      split <;> simp [Nat.mod_one]
    simp [EnvironmentWrapper.forwardCall, EnvironmentWrapper.init, BackendU.isReady,
          BackendU.callMethod, InstancePool.callMethod, InstancePool.isReady,
          InstancePool.healthyMembers, singletonPool, hm, hready, hcall, hidx]
  · exact (cleanup_spec _).1
  · exact (cleanup_spec _).1
  · cases hco : b.cleanupOk with
    | true =>
      simp [EnvironmentWrapper.cleanup, EnvironmentWrapper.init, EnvironmentWrapper.is_ready,
            BackendU.cleanup, BackendU.isReady, BackendModel.cleanup, InstancePool.cleanup,
            InstancePool.isReady, InstancePool.healthyMembers, singletonPool, hco, hready]
    | false =>
      simp [EnvironmentWrapper.cleanup, EnvironmentWrapper.init, EnvironmentWrapper.is_ready,
            BackendU.cleanup, BackendU.isReady, BackendModel.cleanup, InstancePool.cleanup,
            InstancePool.isReady, InstancePool.healthyMembers, singletonPool, hco, hready]

/-- C8, witnessed at a concrete backend. -/
theorem C8_single_replica_equals_singleton_pool_witness :
    (isPrivateName "evaluate" = false) ∧
    (bEx.ready = true) ∧
    ((EnvironmentWrapper.init (.single bEx)).is_ready
      = (EnvironmentWrapper.init (.pool (singletonPool bEx "localhost" 8000 "p" "random" 0 0))).is_ready) ∧
    (((EnvironmentWrapper.init (.single bEx)).forwardCall "evaluate" [] none []).result
      = .ok (Val.vnat 7)) ∧
    (((EnvironmentWrapper.init (.pool (singletonPool bEx "localhost" 8000 "p" "random" 0 0))).forwardCall
        "evaluate" [] none []).result = .ok (Val.vnat 7)) :=
  ⟨rfl, rfl,
    (C8_single_replica_equals_singleton_pool bEx "localhost" 8000 "p" "random" 0 0
      "evaluate" [] none [] (Val.vnat 7) rfl rfl rfl).1,
    (C8_single_replica_equals_singleton_pool bEx "localhost" 8000 "p" "random" 0 0
      "evaluate" [] none [] (Val.vnat 7) rfl rfl rfl).2.1,
    (C8_single_replica_equals_singleton_pool bEx "localhost" 8000 "p" "random" 0 0
      "evaluate" [] none [] (Val.vnat 7) rfl rfl rfl).2.2.1⟩

end RayfineEnv
